import Mathlib

/-!
# Verification of the vus-life desktop application

Shallow embedding of the VUS (variant of uncertain significance) workspace:
the canonical variant identifier construction and mock prediction client
(`mockPredictionApi.ts`), the workspace state store with its setters,
`fetchConfig`, `runPrediction` and `buildVariantRows` (the later store,
`src/unnamed/part_002`), the connection-verifier outcome classification
(`VusApiSettings.verifyVusConnection`), the sidebar resize handler
(`VusSidebar.tsx`), and the AI-interpretation stub (`geminiService.ts`).

JavaScript strings are modelled as Lean `String` (a list of characters);
the JS string primitives used by the source (`split('\n')`, `trim`,
`slice(0, n)`, `includes`, template interpolation of a number) are embedded
as executable helper functions below.
-/

namespace VusLife

/-! ## Embeddings of the JavaScript string primitives used by the source -/

/-- JS whitespace test for the characters that occur in this application's
inputs (space, tab, carriage return, line feed), used by `trim()`. -/
def isJsWhitespace (c : Char) : Bool :=
  c = ' ' || c = '\t' || c = '\r' || c = '\n'

/-- Embedding of JS `String.prototype.trim` on character lists. -/
def trimChars (l : List Char) : List Char :=
  ((l.dropWhile isJsWhitespace).reverse.dropWhile isJsWhitespace).reverse

/-- Embedding of JS `String.prototype.trim`. -/
def jsTrim (s : String) : String :=
  ⟨trimChars s.data⟩

/-- Embedding of JS `String.prototype.split('\n')` on character lists:
splits at every line-feed character, keeping empty segments. -/
def splitNlChars : List Char → List Char → List (List Char)
  | [], acc => [acc.reverse]
  | c :: cs, acc =>
    if c = '\n' then acc.reverse :: splitNlChars cs []
    else splitNlChars cs (c :: acc)

/-- Embedding of JS `String.prototype.split('\n')`. -/
def jsSplitNl (s : String) : List String :=
  (splitNlChars s.data []).map List.asString

/-- Embedding of JS `String.prototype.slice(0, n)`. -/
def jsSliceTo (s : String) (n : Nat) : String :=
  ⟨s.data.take n⟩

/-- Embedding of JS `String.prototype.length`. -/
def jsLength (s : String) : Nat :=
  s.data.length

/-- Embedding of JS `String.prototype.includes`. -/
def jsIncludes (s pat : String) : Bool :=
  decide (pat.data <:+: s.data)

/-! ## Variant identity and the canonical identifier (`mockPredictionApi.ts`) -/

/-- A variant identity tuple as sent to the prediction client
(`{ chromosome, position, ref_allele, alt_allele, hgvs_genomic_38? }`). -/
structure Variant where
  chromosome : String
  position : Nat
  ref_allele : String
  alt_allele : String
  hgvs_genomic_38 : Option String := none
  deriving Repr, DecidableEq

/-- Canonical identifier, first call site (`mockPredictionApi.ts`, lines 32–34):
`const id = [v.chromosome, v.position, v.ref_allele, v.alt_allele].join('_');
return ‵variant_${id}‵` (a JS number joins as its decimal rendering). -/
def mkVariantIdJoin (v : Variant) : String :=
  "variant_" ++ String.intercalate "_"
    [v.chromosome, Nat.repr v.position, v.ref_allele, v.alt_allele]

/-- Canonical identifier, second call site (`mockPredictionApi.ts`, line 41):
`‵variant_${v.chromosome}_${v.position}_${v.ref_allele}_${v.alt_allele}‵`. -/
def mkVariantIdTemplate (v : Variant) : String :=
  "variant_" ++ v.chromosome ++ "_" ++ Nat.repr v.position ++ "_" ++
    v.ref_allele ++ "_" ++ v.alt_allele

/-- The string fields of a variant contain no underscore (the join delimiter). -/
def UnderscoreFree (v : Variant) : Prop :=
  '_' ∉ v.chromosome.data ∧ '_' ∉ v.ref_allele.data ∧ '_' ∉ v.alt_allele.data

instance (v : Variant) : Decidable (UnderscoreFree v) := by
  unfold UnderscoreFree; infer_instance

/-! ## Decimal rendering facts (`Nat.repr` as used by JS number interpolation)

`Nat.repr` is the Lean counterpart of JS decimal rendering of the `position`
field.  We relate it to a structurally recursive rendering function `render`
to show that decimal renderings never contain an underscore and that
rendering is injective. -/

/-- Structurally recursive decimal rendering, equal to `Nat.toDigits 10`. -/
def render (n : Nat) : List Char :=
  if h : n < 10 then [Nat.digitChar n]
  else render (n / 10) ++ [Nat.digitChar (n % 10)]
  termination_by n
  decreasing_by exact Nat.div_lt_self (by omega) (by omega)

/-! ## Prediction response shapes (`features/vus/types.ts`) -/

/-- One `prediction_result[k]` entry: `{ confidence_score?, pred_result? }`. -/
structure PredEntry where
  confidence_score : Option String := none
  pred_result : Option String := none
  deriving Repr, DecidableEq

/-- One nearest-training-variant entry. -/
structure NearestVariant where
  variant_id : String
  pathogenicity : Option String := none
  deriving Repr, DecidableEq

/-- Per-model payload inside a prediction-results entry; `error` present
models the JS `'error' in modelData` key-presence check. -/
structure ModelPayload where
  error : Option String := none
  prediction_result : List (String × PredEntry) := []
  nearest_training_variants : List NearestVariant := []
  deriving Repr, DecidableEq

/-- Variant metadata as delivered by the service/mock (`VariantMetadata`);
every field is optional at the TS type level. -/
structure VariantMetadata where
  chromosome : Option String := none
  position : Option String := none
  ref_allele : Option String := none
  alt_allele : Option String := none
  gene_symbol : Option String := none
  hgvs_genomic_38 : Option String := none
  hgvs_coding : Option String := none
  hgvs_protein : Option String := none
  most_severe_consequence : Option String := none
  pathogenicity_original : Option String := none
  deriving Repr, DecidableEq

/-- One entry of the `prediction_results` map: the required `metadata` field
plus dynamically keyed per-model payloads. -/
structure VariantData where
  metadata : VariantMetadata
  models : List (String × ModelPayload) := []
  deriving Repr, DecidableEq

/-- Response of `get_prediction_results` (`PredictionResultsResponse`);
the JS object `prediction_results` is modelled as an insertion-ordered
association list (key order = `Object.keys` order for non-numeric keys). -/
structure PredictionResultsResponse where
  variants_count : Nat
  existing_variants : List String
  model_name : List String
  annotation_method : Option String := none
  failed_results_count : Nat := 0
  prediction_results : List (String × VariantData) := []
  deriving Repr, DecidableEq

/-- Request payload of `get_prediction_results`. -/
structure PredictionResultPayload where
  gene_symbol : String
  variants : List Variant
  annotation_method : String
  embedding_models : List String
  same_severe_consequence : Bool
  deriving Repr, DecidableEq

/-- JS object property lookup (`obj[key]`) on the association-list model. -/
def objLookup {α : Type} (l : List (String × α)) (key : String) : Option α :=
  match l.find? (fun p => p.1 = key) with
  | some p => some p.2
  | none => none

/-- JS object property assignment (`obj[key] = v`): overwrites the value at
an existing key (keeping its position) or appends a new key. -/
def objInsert {α : Type} (l : List (String × α)) (key : String) (v : α) :
    List (String × α) :=
  if l.any (fun p => p.1 = key) then
    l.map (fun p => if p.1 = key then (key, v) else p)
  else l ++ [(key, v)]

/-! ## Mock prediction client (`mockPredictionApi.ts`) -/

/-- The fixed per-model payload the mock synthesizes for every variant. -/
def mockModelPayload : ModelPayload :=
  { error := none
    prediction_result :=
      [("1", { confidence_score := some "0.82", pred_result := some "Likely pathogenic" }),
       ("5", { confidence_score := some "0.78", pred_result := some "Uncertain significance" })]
    nearest_training_variants :=
      [{ variant_id := "train_1", pathogenicity := some "Pathogenic" },
       { variant_id := "train_2", pathogenicity := some "Benign" }] }

/-- Metadata synthesized by the mock for the `i`-th processed variant. -/
def mockMetadata (gene_symbol : String) (v : Variant) (i : Nat)
    (isExisting : Bool) : VariantMetadata :=
  { chromosome := some v.chromosome
    position := some (Nat.repr v.position)
    ref_allele := some v.ref_allele
    alt_allele := some v.alt_allele
    gene_symbol := some gene_symbol
    hgvs_genomic_38 := some (v.hgvs_genomic_38.getD
      (v.chromosome ++ ":g." ++ Nat.repr v.position ++ v.ref_allele ++ ">" ++ v.alt_allele))
    hgvs_coding := some ""
    hgvs_protein := some ""
    most_severe_consequence := some
      (if isExisting then "missense_variant"
       else if i % 2 = 0 then "missense_variant" else "synonymous_variant")
    pathogenicity_original :=
      if isExisting then some (if i % 2 = 0 then "Pathogenic" else "Benign")
      else none }

/-- The model-name list used by the mock: the requested models, defaulting
to the single fixed model when none were requested. -/
def mockModelNames (payload : PredictionResultPayload) : List String :=
  if payload.embedding_models.isEmpty then ["all-mpnet-base-v2"]
  else payload.embedding_models

/-- The existing-identifier list of the mock: the canonical identifiers of
the first `min(2, floor(n/2))` processed variants (no real lookup). -/
def mockExistingVariants (payload : PredictionResultPayload) : List String :=
  let variants := payload.variants.take 20
  (variants.take (min 2 (variants.length / 2))).map mkVariantIdJoin

/-- One iteration of the mock's `variants.forEach((v, i) => ...)` loop: the
canonical identifier of the variant paired with its synthesized entry. -/
def mockEntry (gene : String) (modelNames existing : List String)
    (p : Nat × Variant) : String × VariantData :=
  (mkVariantIdTemplate p.2,
   { metadata := mockMetadata gene p.2 p.1
       (existing.contains (mkVariantIdTemplate p.2))
     models := modelNames.map (fun name => (name, mockModelPayload)) })

/-- `getMockPredictionResults` (`mockPredictionApi.ts`, lines 25–84), with the
artificial delay dropped: caps the input at 20 variants, marks the first
`min(2, floor(n/2))` processed variants as existing by constructing their
canonical identifiers, synthesizes fixed per-model payloads, and reports zero
failed variants. -/
def getMockPredictionResults (payload : PredictionResultPayload) :
    PredictionResultsResponse :=
  let variants := payload.variants.take 20
  { variants_count := variants.length
    existing_variants := mockExistingVariants payload
    model_name := mockModelNames payload
    annotation_method := some payload.annotation_method
    failed_results_count := 0
    prediction_results :=
      variants.enum.foldl (fun acc p =>
        let e := mockEntry payload.gene_symbol (mockModelNames payload)
          (mockExistingVariants payload) p
        objInsert acc e.1 e.2) [] }

/-! ## Display rows (`buildVariantRows`, later store `src/unnamed/part_002`) -/

inductive RowStatus where
  | existing
  | new
  deriving Repr, DecidableEq

/-- One table row (`VariantRow`). -/
structure VariantRow where
  variant_id : String
  hgvs_genomic_38 : String
  most_severe_consequence : String
  pathogenicity_original : Option String := none
  prediction_score : Option String := none
  prediction_label : Option String := none
  status : RowStatus
  metadata : VariantMetadata
  deriving Repr, DecidableEq

/-- The score/label extraction of `buildVariantRows` for a non-existing row:
first listed model's payload, skipped when an `error` key is present, the
`prediction_result["5"] ?? prediction_result["1"]` entry, score defaulting to
`''` and label defaulting to the score. -/
def newRowScoreLabel (data : VariantData) (modelNames : List String) :
    Option String × Option String :=
  match modelNames.head? with
  | none => (none, none)
  | some firstModel =>
    match objLookup data.models firstModel with
    | none => (none, none)
    | some modelData =>
      if modelData.error.isSome then (none, none)
      else
        let kData := (objLookup modelData.prediction_result "5").orElse
          (fun _ => objLookup modelData.prediction_result "1")
        let score := (kData.bind PredEntry.confidence_score).getD ""
        let label := (kData.bind PredEntry.pred_result).getD score
        (some score, some label)

/-- One iteration of the `buildVariantRows` loop (`part_002`, lines 276–305). -/
def buildRow (res : PredictionResultsResponse) (variantId : String)
    (data : VariantData) : VariantRow :=
  let isExisting := res.existing_variants.contains variantId
  let status := if isExisting then RowStatus.existing else RowStatus.new
  let scoreLabel :=
    if !isExisting && !res.model_name.isEmpty then newRowScoreLabel data res.model_name
    else (none, none)
  { variant_id := variantId
    hgvs_genomic_38 := data.metadata.hgvs_genomic_38.getD variantId
    most_severe_consequence := data.metadata.most_severe_consequence.getD "—"
    pathogenicity_original := data.metadata.pathogenicity_original
    prediction_score := if status = RowStatus.new then scoreLabel.1 else none
    prediction_label := if status = RowStatus.new then scoreLabel.2 else none
    status := status
    metadata := data.metadata }

/-- `buildVariantRows` (`part_002`, lines 268–308): one row per key of the
`prediction_results` map, in key order. -/
def buildVariantRows (res : PredictionResultsResponse) : List VariantRow :=
  res.prediction_results.map (fun p => buildRow res p.1 p.2)

/-! ## Workspace store state (`src/unnamed/part_002`, `useVusStore`) -/

inductive InputMethod where
  | manual
  | file
  deriving Repr, DecidableEq

/-- Configuration returned by `fetchMockConfig` (`VusConfig`). -/
structure VusConfig where
  gene_names : List String
  annotation_methods : List String
  embedding_models : List String
  deriving Repr, DecidableEq

/-- The fields of the `useVusStore` zustand state (later store,
`src/unnamed/part_002`). -/
structure VusState where
  showAgreement : Bool
  agreementAccepted : Bool
  config : Option VusConfig
  configLoading : Bool
  configError : Option String
  isApiConnected : Option Bool
  geneSymbol : String
  annotationMethod : String
  embeddingModels : List String
  sameSevereConsequence : Bool
  selectedGene : String
  selectedAnnotation : String
  selectedModels : List String
  filterSameConsequence : Bool
  manualInput : String
  activeTab : InputMethod
  inputMethod : InputMethod
  manualInputText : String
  inputVariants : List Variant
  sidebarWidth : Int
  isResizing : Bool
  isMetadataReady : Bool
  isDownloadingMetadata : Bool
  predictionResults : Option PredictionResultsResponse
  resultsLoading : Bool
  resultsError : Option String
  variantRows : List VariantRow
  selectedVariant : Option VariantRow
  deriving Repr, DecidableEq

/-- Initial store state (`part_002`, lines 102–265), with the persisted
agreement flag taken as its `localStorage`-absent default `false`. -/
def initState : VusState :=
  { showAgreement := false
    agreementAccepted := false
    config := none
    configLoading := false
    configError := none
    isApiConnected := none
    geneSymbol := "ATM"
    annotationMethod := "vep"
    embeddingModels := []
    sameSevereConsequence := false
    selectedGene := "ATM"
    selectedAnnotation := "vep"
    selectedModels := []
    filterSameConsequence := false
    manualInput := ""
    activeTab := InputMethod.manual
    inputMethod := InputMethod.manual
    manualInputText := ""
    inputVariants := []
    sidebarWidth := 360
    isResizing := false
    isMetadataReady := true
    isDownloadingMetadata := false
    predictionResults := none
    resultsLoading := false
    resultsError := none
    variantRows := []
    selectedVariant := none }

/-! Setters of the later store, each mirroring one `set({...})` call. -/

def setShowAgreement (s : VusState) (show' : Bool) : VusState :=
  { s with showAgreement := show' }

def acceptAgreement (s : VusState) (dontShowAgain : Bool) : VusState :=
  if dontShowAgain then { s with agreementAccepted := true, showAgreement := false }
  else { s with showAgreement := false }

def setGeneSymbol (s : VusState) (v : String) : VusState :=
  { s with geneSymbol := v, selectedGene := v }

def setAnnotationMethod (s : VusState) (v : String) : VusState :=
  { s with annotationMethod := v, selectedAnnotation := v }

def setEmbeddingModels (s : VusState) (v : List String) : VusState :=
  { s with embeddingModels := v, selectedModels := v }

def setSameSevereConsequence (s : VusState) (v : Bool) : VusState :=
  { s with sameSevereConsequence := v, filterSameConsequence := v }

def setSelectedGene (s : VusState) (v : String) : VusState :=
  { s with geneSymbol := v, selectedGene := v }

def setSelectedAnnotation (s : VusState) (v : String) : VusState :=
  { s with annotationMethod := v, selectedAnnotation := v }

/-- `toggleModel` (`part_002`, lines 173–177). -/
def toggleList (list : List String) (m : String) : List String :=
  if list.contains m then list.filter (fun x => x ≠ m) else list ++ [m]

def toggleModel (s : VusState) (m : String) : VusState :=
  let next := toggleList s.embeddingModels m
  { s with embeddingModels := next, selectedModels := next }

def removeModel (s : VusState) (m : String) : VusState :=
  let next := s.embeddingModels.filter (fun x => x ≠ m)
  { s with embeddingModels := next, selectedModels := next }

def setFilterSameConsequence (s : VusState) (v : Bool) : VusState :=
  { s with sameSevereConsequence := v, filterSameConsequence := v }

def setManualInput (s : VusState) (v : String) : VusState :=
  { s with manualInputText := v, manualInput := v }

def setActiveTab (s : VusState) (v : InputMethod) : VusState :=
  { s with inputMethod := v, activeTab := v }

def setInputMethod (s : VusState) (v : InputMethod) : VusState :=
  { s with inputMethod := v, activeTab := v }

def setManualInputText (s : VusState) (v : String) : VusState :=
  { s with manualInputText := v, manualInput := v }

def setInputVariants (s : VusState) (v : List Variant) : VusState :=
  { s with inputVariants := v }

def setSidebarWidth (s : VusState) (w : Int) : VusState :=
  { s with sidebarWidth := w }

def setIsResizing (s : VusState) (v : Bool) : VusState :=
  { s with isResizing := v }

def setPredictionResults (s : VusState)
    (r : Option PredictionResultsResponse) : VusState :=
  { s with predictionResults := r, resultsError := none }

def setVariantRows (s : VusState) (rows : List VariantRow) : VusState :=
  { s with variantRows := rows }

def setSelectedVariant (s : VusState) (v : Option VariantRow) : VusState :=
  { s with selectedVariant := v }

/-- `downloadMetadata` (`part_002`, lines 202–206), final state after the
stubbed delay. -/
def downloadMetadata (s : VusState) : VusState :=
  { s with isDownloadingMetadata := false, isMetadataReady := true }

/-- `fetchConfig` (`part_002`, lines 119–158): resulting state as a function
of the config fetch outcome and (on success) the passive health-probe result
(`false` when no API address is configured or the probe fails). -/
def fetchConfig (s : VusState) (result : Except String VusConfig)
    (health : Bool) : VusState :=
  if s.config.isSome then s
  else
    match result with
    | Except.ok config =>
      let embeddingModels :=
        if s.embeddingModels.isEmpty then config.embedding_models
        else s.embeddingModels
      { s with config := some config
               configLoading := false
               configError := none
               embeddingModels := embeddingModels
               selectedModels := embeddingModels
               isApiConnected := some health }
    | Except.error msg =>
      { s with configLoading := false
               configError := some msg
               isApiConnected := some false }

/-! ## `runPrediction` (`part_002`, lines 212–258) -/

/-- The non-blank trimmed lines of the manual input before the cap:
`manualInputText.trim().split('\n').map(l => l.trim()).filter(Boolean)`. -/
def nonBlankLines (text : String) : List String :=
  (((jsSplitNl (jsTrim text)).map jsTrim).filter (fun l => l ≠ ""))

/-- Manual-entry line derivation (`part_002`, line 216):
`manualInputText.trim().split('\n').map(l => l.trim()).filter(Boolean).slice(0, 20)`. -/
def manualLines (text : String) : List String :=
  (nonBlankLines text).take 20

/-- Placeholder variant synthesis for manual entry (`part_002`, lines 217–223):
fixed chromosome/ref/alt, incrementing position, the line as HGVS label
(`lines[i] ?? ''`). -/
def manualVariants (text : String) : List Variant :=
  let lines := manualLines text
  lines.enum.map (fun p =>
    { chromosome := "17"
      position := 43064189 + p.1
      ref_allele := "T"
      alt_allele := "C"
      hgvs_genomic_38 := some (lines.getD p.1 "") })

/-- The effective variant list of `runPrediction` (lines 214–224): manual
entry overrides `inputVariants` when active and non-blank. -/
def effectiveVariants (s : VusState) : List Variant :=
  if s.inputMethod = InputMethod.manual ∧ jsTrim s.manualInputText ≠ "" then
    manualVariants s.manualInputText
  else s.inputVariants

def noVariantsError : String :=
  "Please add at least one variant (manual entry or file)."

def noGeneError : String := "Please select a gene symbol."

def noModelError : String := "Please select at least one embedding model."

/-- `runPrediction` (`part_002`, lines 212–258) as a state transition; the
mock client call is inlined (it is deterministic and never throws), and the
transient `resultsLoading := true` is elided since the success path always
clears it. -/
def runPrediction (s : VusState) : VusState :=
  if (effectiveVariants s).isEmpty then { s with resultsError := some noVariantsError }
  else if s.geneSymbol = "" then { s with resultsError := some noGeneError }
  else if s.embeddingModels.isEmpty then { s with resultsError := some noModelError }
  else
    let response := getMockPredictionResults
      { gene_symbol := s.geneSymbol
        variants := effectiveVariants s
        annotation_method := s.annotationMethod
        embedding_models := s.embeddingModels
        same_severe_consequence := s.sameSevereConsequence }
    { s with resultsLoading := false
             resultsError := none
             predictionResults := some response
             variantRows := buildVariantRows response }

/-! ## Sidebar resize handler (`VusSidebar.tsx`, lines 64–69) -/

/-- `resize(e)`: candidate width is `e.clientX - 64`; the stored width is
updated only when `newWidth > 300 && newWidth < 600`. -/
def resize (isResizing : Bool) (clientX : Int) (sidebarWidth : Int) : Int :=
  if isResizing then
    let newWidth := clientX - 64
    if newWidth > 300 ∧ newWidth < 600 then newWidth else sidebarWidth
  else sidebarWidth

/-! ## Connection verifier (`VusApiSettings.verifyVusConnection`) -/

/-- Parsed payload of a health response (`{ status?, service? }`). -/
structure HealthJson where
  status : Option String := none
  service : Option String := none
  deriving Repr, DecidableEq

/-- Outcome of the time-bounded `fetch` against `/health`, as observed by the
`try`/`catch` of `verifyVusConnection`: the 8-second bound elapsed
(`AbortError`), a transport/CORS failure (`TypeError`), or an HTTP response
with its success flag, status code, content type, body text and — when the
body is read as JSON — either the parsed payload or the parse-error message. -/
inductive ProbeOutcome where
  | timeout
  | transportError
  | response (ok : Bool) (status : Nat) (contentType : Option String)
      (body : String) (json : Except String HealthJson)
  deriving Repr

/-- The stored connection status: connected flag, message, and the
`'success' | 'error'` classification passed to `setConnectionStatus`. -/
structure ConnectionStatus where
  connected : Bool
  message : String
  kind : String
  deriving Repr, DecidableEq

def timeoutMessage : String :=
  "Connection timed out (8s). The server might be offline."

def corsMessage : String :=
  "Network error or CORS block. Check if the server allows cross-origin requests."

def nonJsonMessage : String :=
  "Received non-JSON response. Ensure the URL is correct and the server is running."

def unhealthyMessage : String := "Service reported unhealthy status."

def serverErrorMessage (status : Nat) (body : String) : String :=
  "Server error (" ++ Nat.repr status ++ "): " ++ jsSliceTo body 50 ++ "..."

def successMessage (service : Option String) : String :=
  "Connection Successful! Service: " ++ service.getD "vus-life-server"

/-- The `!contentType || !contentType.includes('application/json')` check. -/
def hasJsonContentType (contentType : Option String) : Bool :=
  match contentType with
  | none => false
  | some ct => jsIncludes ct "application/json"

/-- Classification performed by `verifyVusConnection` (`VusApiSettings`,
lines 414–471): the `(connected, message, kind)` triple stored via
`setConnectionStatus` for each probe outcome. -/
def verifyClassify (o : ProbeOutcome) : ConnectionStatus :=
  match o with
  | ProbeOutcome.timeout =>
    { connected := false, message := timeoutMessage, kind := "error" }
  | ProbeOutcome.transportError =>
    { connected := false, message := corsMessage, kind := "error" }
  | ProbeOutcome.response ok status contentType body json =>
    if ok then
      if ¬ hasJsonContentType contentType then
        { connected := false, message := nonJsonMessage, kind := "error" }
      else
        match json with
        | Except.error msg =>
          { connected := false, message := msg, kind := "error" }
        | Except.ok data =>
          if data.status = some "healthy" then
            { connected := true, message := successMessage data.service,
              kind := "success" }
          else
            { connected := false, message := unhealthyMessage, kind := "error" }
    else
      { connected := false, message := serverErrorMessage status body,
        kind := "error" }

/-! ## AI interpretation stub (`geminiService.ts`, `askVariantAgent`) -/

def askPrefix : String := "Based on the variant context and your question: \""

def askSuffix : String :=
  "\" — This is a placeholder response. Connect the Gemini API in Settings to enable AI interpretations."

/-- `askVariantAgent` (`geminiService.ts`, lines 21–27), with the artificial
600 ms delay dropped: the variant argument is unused by the source, and the
template echoes `userMessage.slice(0, 80)` plus an ellipsis when
`userMessage.length > 80`. -/
def askVariantAgent (userMessage : String) : String :=
  askPrefix ++ jsSliceTo userMessage 80 ++
    (if jsLength userMessage > 80 then "…" else "") ++ askSuffix

/-! ## Derived notions used by the statements below -/

/-- The store's aliasing invariant: each sidebar-facing alias field mirrors
its primary field (both are always written together by every setter). -/
def StoreAliasInv (s : VusState) : Prop :=
  s.geneSymbol = s.selectedGene ∧
  s.annotationMethod = s.selectedAnnotation ∧
  s.embeddingModels = s.selectedModels ∧
  s.sameSevereConsequence = s.filterSameConsequence ∧
  s.manualInputText = s.manualInput ∧
  s.inputMethod = s.activeTab

instance (s : VusState) : Decidable (StoreAliasInv s) := by
  unfold StoreAliasInv; infer_instance

/-- A 35-entry newline-separated manual input, used to exercise the 20-line cap. -/
def text35 : String :=
  "e01\ne02\ne03\ne04\ne05\ne06\ne07\ne08\ne09\ne10\n" ++
  "e11\ne12\ne13\ne14\ne15\ne16\ne17\ne18\ne19\ne20\n" ++
  "e21\ne22\ne23\ne24\ne25\ne26\ne27\ne28\ne29\ne30\n" ++
  "e31\ne32\ne33\ne34\ne35"

/-- Six pairwise-distinct variant tuples whose first two canonical
identifiers nevertheless coincide (the underscore inside the first
chromosome realigns the joined fields). -/
def collidingSix : List Variant :=
  [{ chromosome := "1_2", position := 3, ref_allele := "A", alt_allele := "C" },
   { chromosome := "1", position := 2, ref_allele := "3_A", alt_allele := "C" },
   { chromosome := "17", position := 100, ref_allele := "T", alt_allele := "C" },
   { chromosome := "17", position := 101, ref_allele := "T", alt_allele := "C" },
   { chromosome := "17", position := 102, ref_allele := "T", alt_allele := "C" },
   { chromosome := "17", position := 103, ref_allele := "T", alt_allele := "C" }]

/-- A sample per-variant entry with no metadata fields, used to exercise the
row derivation on a concrete response. -/
def sampleNewData : VariantData :=
  { metadata := {}
    models := [("all-mpnet-base-v2", mockModelPayload)] }

/-- A small concrete prediction response with one existing and one new
variant. -/
def sampleResponse : PredictionResultsResponse :=
  { variants_count := 2
    existing_variants := ["variant_17_1_T_C"]
    model_name := ["all-mpnet-base-v2"]
    annotation_method := some "vep"
    failed_results_count := 0
    prediction_results :=
      [("variant_17_1_T_C",
        { metadata := { pathogenicity_original := some "Pathogenic" }
          models := [("all-mpnet-base-v2", mockModelPayload)] }),
       ("variant_17_2_T_C", sampleNewData)] }

/-! ## Helper lemmas: decimal rendering and underscore-joined strings -/

theorem render_lt (n : Nat) (h : n < 10) : render n = [Nat.digitChar n] := by
  rw [render]; simp [h]

theorem render_ge (n : Nat) (h : ¬ n < 10) :
    render n = render (n / 10) ++ [Nat.digitChar (n % 10)] := by
  rw [render]; simp [h]

theorem digitChar_ne_underscore (d : Nat) (h : d < 10) :
    Nat.digitChar d ≠ '_' := by
  interval_cases d <;> decide

theorem digitChar_inj_lt10 (a b : Nat) (ha : a < 10) (hb : b < 10)
    (h : Nat.digitChar a = Nat.digitChar b) : a = b := by
  revert h
  interval_cases a <;> interval_cases b <;> decide

theorem render_ne_nil (n : Nat) : render n ≠ [] := by
  by_cases h : n < 10
  · rw [render_lt n h]; simp
  · rw [render_ge n h]; simp

theorem underscore_not_mem_render (n : Nat) : '_' ∉ render n := by
  induction n using Nat.strong_induction_on with
  | _ n ih =>
    by_cases h : n < 10
    · rw [render_lt n h]
      simp [Ne.symm (digitChar_ne_underscore n h)]
    · rw [render_ge n h]
      intro hmem
      rcases List.mem_append.mp hmem with h1 | h2
      · exact ih (n / 10) (Nat.div_lt_self (by omega) (by omega)) h1
      · simp at h2
        exact digitChar_ne_underscore (n % 10) (Nat.mod_lt _ (by omega)) h2.symm

theorem render_inj : ∀ a b : Nat, render a = render b → a = b := by
  intro a
  induction a using Nat.strong_induction_on with
  | _ a ih =>
    intro b h
    by_cases ha : a < 10 <;> by_cases hb : b < 10
    · rw [render_lt a ha, render_lt b hb] at h
      simp at h
      exact digitChar_inj_lt10 a b ha hb h
    · rw [render_lt a ha, render_ge b hb] at h
      have hlen := congrArg List.length h
      simp at hlen
      exact absurd hlen (render_ne_nil (b / 10))
    · rw [render_ge a ha, render_lt b hb] at h
      have hlen := congrArg List.length h
      simp at hlen
      exact absurd hlen (render_ne_nil (a / 10))
    · rw [render_ge a ha, render_ge b hb] at h
      have hlast : Nat.digitChar (a % 10) = Nat.digitChar (b % 10) ∧
          render (a / 10) = render (b / 10) := by
        have := List.append_inj' h (by simp)
        exact ⟨by simpa using congrArg (fun l => l.headI) this.2, this.1⟩
      have h1 : a % 10 = b % 10 :=
        digitChar_inj_lt10 _ _ (Nat.mod_lt _ (by omega)) (Nat.mod_lt _ (by omega)) hlast.1
      have h2 : a / 10 = b / 10 :=
        ih (a / 10) (Nat.div_lt_self (by omega) (by omega)) (b / 10) hlast.2
      omega

theorem toDigitsCore_succ (fuel n : Nat) (ds : List Char) :
    Nat.toDigitsCore 10 (fuel + 1) n ds =
      if n / 10 = 0 then Nat.digitChar (n % 10) :: ds
      else Nat.toDigitsCore 10 fuel (n / 10) (Nat.digitChar (n % 10) :: ds) :=
  rfl

theorem toDigitsCore_eq_render (fuel : Nat) :
    ∀ (n : Nat) (ds : List Char), n < 10 ^ (fuel + 1) →
      Nat.toDigitsCore 10 (fuel + 1) n ds = render n ++ ds := by
  induction fuel with
  | zero =>
    intro n ds h
    have hlt : n < 10 := by simpa using h
    rw [toDigitsCore_succ]
    have h10 : n / 10 = 0 := Nat.div_eq_of_lt hlt
    rw [if_pos h10, render_lt n hlt, Nat.mod_eq_of_lt hlt]
    rfl
  | succ f ih =>
    intro n ds h
    rw [toDigitsCore_succ]
    by_cases h10 : n / 10 = 0
    · have hn : n < 10 := by omega
      simp [h10, render_lt n hn, Nat.mod_eq_of_lt hn]
    · simp only [h10, if_false]
      have hdiv : n / 10 < 10 ^ (f + 1) := by
        rw [Nat.div_lt_iff_lt_mul (by omega)]
        calc n < 10 ^ (f + 1 + 1) := h
          _ = 10 ^ (f + 1) * 10 := by ring
      rw [ih (n / 10) _ hdiv]
      have hn : ¬ n < 10 := by
        intro hc
        exact h10 (Nat.div_eq_of_lt hc)
      rw [render_ge n hn]
      simp

theorem repr_data_eq_render (n : Nat) : (Nat.repr n).data = render n := by
  have hpow : n < 10 ^ (n + 1) :=
    lt_of_lt_of_le (Nat.lt_pow_self (by omega) n)
      (Nat.pow_le_pow_right (by omega) (by omega))
  show (Nat.toDigits 10 n).asString.data = render n
  rw [Nat.toDigits, toDigitsCore_eq_render n n [] hpow]
  simp [List.asString]

theorem underscore_not_mem_repr (n : Nat) : '_' ∉ (Nat.repr n).data := by
  rw [repr_data_eq_render]; exact underscore_not_mem_render n

theorem repr_injective (a b : Nat) (h : Nat.repr a = Nat.repr b) : a = b := by
  apply render_inj
  rw [← repr_data_eq_render, ← repr_data_eq_render, h]

/-! ## Splitting underscore-joined strings -/

/-- Two underscore-free prefixes followed by an underscore separator split
uniquely. -/
theorem sep_split {a c : List Char} (ha : '_' ∉ a) (hc : '_' ∉ c)
    {b d : List Char} (h : a ++ '_' :: b = c ++ '_' :: d) : a = c ∧ b = d := by
  induction a generalizing c with
  | nil =>
    cases c with
    | nil => simpa using h
    | cons y ys =>
      simp only [List.nil_append, List.cons_append, List.cons.injEq] at h
      exact absurd (List.mem_cons_self y ys) (h.1 ▸ hc)
  | cons x xs ih =>
    cases c with
    | nil =>
      simp only [List.cons_append, List.nil_append, List.cons.injEq] at h
      exact absurd (List.mem_cons_self x xs) (h.1 ▸ ha)
    | cons y ys =>
      simp only [List.cons_append, List.cons.injEq] at h
      obtain ⟨rfl, h2⟩ := h
      have := ih (fun hm => ha (List.mem_cons_of_mem _ hm))
        (fun hm => hc (List.mem_cons_of_mem _ hm)) h2
      exact ⟨by rw [this.1], this.2⟩

theorem mkVariantIdTemplate_inj (v w : Variant)
    (hv : UnderscoreFree v) (hw : UnderscoreFree w)
    (h : mkVariantIdTemplate v = mkVariantIdTemplate w) :
    v.chromosome = w.chromosome ∧ v.position = w.position ∧
      v.ref_allele = w.ref_allele ∧ v.alt_allele = w.alt_allele := by
  have hd := congrArg String.data h
  simp only [mkVariantIdTemplate, String.data_append] at hd
  have hd' : v.chromosome.data ++ '_' :: ((Nat.repr v.position).data ++ '_' ::
      (v.ref_allele.data ++ '_' :: v.alt_allele.data)) =
      w.chromosome.data ++ '_' :: ((Nat.repr w.position).data ++ '_' ::
      (w.ref_allele.data ++ '_' :: w.alt_allele.data)) := by
    apply List.append_cancel_left
    calc "variant_".data ++ (v.chromosome.data ++ '_' ::
          ((Nat.repr v.position).data ++ '_' ::
            (v.ref_allele.data ++ '_' :: v.alt_allele.data)))
        = "variant_".data ++ v.chromosome.data ++ "_".data ++
            (Nat.repr v.position).data ++ "_".data ++ v.ref_allele.data ++
            "_".data ++ v.alt_allele.data := by simp
      _ = "variant_".data ++ w.chromosome.data ++ "_".data ++
            (Nat.repr w.position).data ++ "_".data ++ w.ref_allele.data ++
            "_".data ++ w.alt_allele.data := hd
      _ = "variant_".data ++ (w.chromosome.data ++ '_' ::
            ((Nat.repr w.position).data ++ '_' ::
              (w.ref_allele.data ++ '_' :: w.alt_allele.data))) := by simp
  obtain ⟨h1, hrest⟩ := sep_split hv.1 hw.1 hd'
  obtain ⟨h2, hrest2⟩ := sep_split (underscore_not_mem_repr _)
    (underscore_not_mem_repr _) hrest
  obtain ⟨h3, h4⟩ := sep_split hv.2.1 hw.2.1 hrest2
  refine ⟨String.ext h1, ?_, String.ext h3, String.ext h4⟩
  exact repr_injective _ _ (String.ext h2)

theorem mkVariantId_call_sites_agree (v : Variant) :
    mkVariantIdJoin v = mkVariantIdTemplate v := by
  simp [mkVariantIdJoin, mkVariantIdTemplate, String.intercalate]
  rfl

/-! ## Helper lemmas: toggle semantics -/

theorem toggleList_mem_eq (l : List String) (m : String) (h : m ∈ l) :
    toggleList l m = l.filter (fun x => x ≠ m) := by
  simp [toggleList, h]

theorem toggleList_not_mem_eq (l : List String) (m : String) (h : m ∉ l) :
    toggleList l m = l ++ [m] := by
  simp [toggleList, h]

theorem filter_ne_self (l : List String) (m : String) (h : m ∉ l) :
    l.filter (fun x => x ≠ m) = l := by
  apply List.filter_eq_self.mpr
  intro a ha
  simp only [ne_eq, decide_not, Bool.not_eq_true', decide_eq_false_iff_not]
  exact fun hae => h (hae ▸ ha)

theorem filter_ne_idem (l : List String) (m : String) :
    (l.filter (fun x => x ≠ m)).filter (fun x => x ≠ m) =
      l.filter (fun x => x ≠ m) := by
  apply List.filter_eq_self.mpr
  intro a ha
  exact (List.mem_filter.mp ha).2

theorem not_mem_filter_ne (l : List String) (m : String) :
    m ∉ l.filter (fun x => x ≠ m) := by
  intro hmem
  simpa using (List.mem_filter.mp hmem).2

theorem toggleList_filter (l : List String) (m : String) :
    (toggleList l m).filter (fun x => x ≠ m) = l.filter (fun x => x ≠ m) := by
  by_cases hm : m ∈ l
  · rw [toggleList_mem_eq l m hm, filter_ne_idem]
  · rw [toggleList_not_mem_eq l m hm, List.filter_append]
    simp

theorem toggleList_twice_mem (l : List String) (m x : String) :
    x ∈ toggleList (toggleList l m) m ↔ x ∈ l := by
  by_cases hm : m ∈ l
  · rw [toggleList_mem_eq l m hm,
      toggleList_not_mem_eq _ m (not_mem_filter_ne l m)]
    simp only [List.mem_append, List.mem_filter, List.mem_singleton,
      ne_eq, decide_not, Bool.not_eq_true', decide_eq_false_iff_not]
    constructor
    · rintro (⟨hx, _⟩ | rfl)
      · exact hx
      · exact hm
    · intro hx
      by_cases hxm : x = m
      · exact Or.inr hxm
      · exact Or.inl ⟨hx, hxm⟩
  · rw [toggleList_not_mem_eq l m hm,
      toggleList_mem_eq _ m (by simp), List.filter_append]
    simp only [List.filter_cons, List.filter_nil]
    rw [filter_ne_self l m hm]
    simp

theorem toggleList_twice_not_mem (l : List String) (m : String)
    (h : m ∉ l) : toggleList (toggleList l m) m = l := by
  rw [toggleList_not_mem_eq l m h, toggleList_mem_eq _ m (by simp),
    List.filter_append, filter_ne_self l m h]
  simp

/-! ## Claim theorems -/

/-- C7: toggling a model name twice in the sidebar selection returns the
selection to its original contents as a set (exactly, when the name was not
selected), the relative order of all untouched entries is preserved after
each of the two toggles, and the aliased selection list tracks it. -/
theorem claim_C7 (s : VusState) (m : String) :
    (∀ x, x ∈ (toggleModel (toggleModel s m) m).embeddingModels ↔
      x ∈ s.embeddingModels) ∧
    ((toggleModel s m).embeddingModels.filter (fun x => x ≠ m) =
      s.embeddingModels.filter (fun x => x ≠ m)) ∧
    ((toggleModel (toggleModel s m) m).embeddingModels.filter (fun x => x ≠ m) =
      s.embeddingModels.filter (fun x => x ≠ m)) ∧
    ((toggleModel (toggleModel s m) m).selectedModels =
      (toggleModel (toggleModel s m) m).embeddingModels) ∧
    (m ∉ s.embeddingModels →
      (toggleModel (toggleModel s m) m).embeddingModels = s.embeddingModels) := by
  refine ⟨?_, ?_, ?_, rfl, ?_⟩
  · intro x
    simpa [toggleModel] using toggleList_twice_mem s.embeddingModels m x
  · simpa [toggleModel] using toggleList_filter s.embeddingModels m
  · show (toggleList (toggleList s.embeddingModels m) m).filter (fun x => x ≠ m) = _
    rw [toggleList_filter, toggleList_filter]
  · intro h
    simpa [toggleModel] using toggleList_twice_not_mem s.embeddingModels m h

/-- C7 witness: double-toggling a model absent from the empty initial
selection restores the empty selection exactly. -/
theorem claim_C7_witness :
    (toggleModel (toggleModel initState "e5-small-v2") "e5-small-v2").embeddingModels =
      initState.embeddingModels :=
  (claim_C7 initState "e5-small-v2").2.2.2.2 (by decide)

/-- C8 (amended): the candidate sidebar width is the pointer position minus
the fixed 64-unit offset; while resizing, a computed width of 300 or less, or
of 600 or more, leaves the stored width unchanged, and a computed width
strictly between 300 and 600 updates the stored width exactly to the
computed value; without an active resize the width never changes. -/
theorem claim_C8 (clientX w : Int) :
    (resize false clientX w = w) ∧
    (clientX - 64 ≤ 300 ∨ 600 ≤ clientX - 64 → resize true clientX w = w) ∧
    (300 < clientX - 64 → clientX - 64 < 600 →
      resize true clientX w = clientX - 64) := by
  refine ⟨rfl, ?_, ?_⟩
  · intro h
    show (if 300 < clientX - 64 ∧ clientX - 64 < 600 then clientX - 64 else w) = w
    rw [if_neg]
    omega
  · intro h1 h2
    show (if 300 < clientX - 64 ∧ clientX - 64 < 600 then clientX - 64 else w) =
      clientX - 64
    rw [if_pos ⟨h1, h2⟩]

/-- C8 counterexample: at pointer position 364 the computed width is exactly
300, which lies within the claimed 300–600 range, yet the stored width 360
is left unchanged rather than updated to 300 (the code's bounds are strict). -/
theorem claim_C8_counterexample :
    ((364 : Int) - 64 = 300) ∧ resize true 364 360 = 360 ∧
      resize true 364 360 ≠ 300 := by
  refine ⟨rfl, rfl, by decide⟩

/-- C8 witness: at pointer position 464 the computed width 400 is in range
and is stored exactly. -/
theorem claim_C8_witness : resize true 464 360 = (464 : Int) - 64 :=
  (claim_C8 464 360).2.2 (by decide) (by decide)

/-- C9: the AI-interpretation stub is total and returns the fixed template
around the first 80 characters of the question; the ellipsis is appended
exactly when the question exceeds 80 characters; a question of at most 80
characters is echoed whole. -/
theorem claim_C9 (msg : String) :
    (askVariantAgent msg = askPrefix ++ jsSliceTo msg 80 ++
      (if jsLength msg > 80 then "…" else "") ++ askSuffix) ∧
    (jsLength msg ≤ 80 → askVariantAgent msg = askPrefix ++ msg ++ askSuffix) ∧
    (jsLength msg > 80 →
      askVariantAgent msg = askPrefix ++ jsSliceTo msg 80 ++ "…" ++ askSuffix) ∧
    (jsLength (askVariantAgent msg) = jsLength askPrefix + min (jsLength msg) 80 +
      (if jsLength msg > 80 then 1 else 0) + jsLength askSuffix) := by
  refine ⟨rfl, ?_, ?_, ?_⟩
  · intro h
    have htake : jsSliceTo msg 80 = msg := by
      show String.mk (msg.data.take 80) = msg
      rw [List.take_of_length_le h]
    have hif : ¬ jsLength msg > 80 := by omega
    show askPrefix ++ jsSliceTo msg 80 ++
      (if jsLength msg > 80 then "…" else "") ++ askSuffix = _
    rw [htake, if_neg hif]
    simp
  · intro h
    show askPrefix ++ jsSliceTo msg 80 ++
      (if jsLength msg > 80 then "…" else "") ++ askSuffix = _
    rw [if_pos h]
  · show jsLength (askPrefix ++ jsSliceTo msg 80 ++
      (if jsLength msg > 80 then "…" else "") ++ askSuffix) = _
    have hell : ("…" : String).data.length = 1 := rfl
    have hemp : ("" : String).data.length = 0 := rfl
    by_cases h : jsLength msg > 80
    · rw [if_pos h, if_pos h]
      simp only [jsLength, jsSliceTo, String.data_append, List.length_append,
        List.length_take] at *
      omega
    · rw [if_neg h, if_neg h]
      simp only [jsLength, jsSliceTo, String.data_append, List.length_append,
        List.length_take] at *
      omega

/-- C9 witness: an 81-character question is echoed as its first 80
characters followed by an ellipsis. -/
theorem claim_C9_witness :
    askVariantAgent (String.mk (List.replicate 81 'q')) =
      askPrefix ++ jsSliceTo (String.mk (List.replicate 81 'q')) 80 ++ "…" ++
        askSuffix :=
  (claim_C9 (String.mk (List.replicate 81 'q'))).2.2.1 (by decide)

/-- C2: runPrediction validates in order — empty effective variant list
first (its error is reported even when no gene is selected either), then
missing gene, then empty embedding-model selection; each failure sets only
the result-level error message, leaving the stored prediction response and
derived rows unchanged and never invoking the prediction client. -/
theorem claim_C2 (s : VusState) :
    (effectiveVariants s = [] →
      runPrediction s = { s with resultsError := some noVariantsError }) ∧
    (effectiveVariants s ≠ [] → s.geneSymbol = "" →
      runPrediction s = { s with resultsError := some noGeneError }) ∧
    (effectiveVariants s ≠ [] → s.geneSymbol ≠ "" → s.embeddingModels = [] →
      runPrediction s = { s with resultsError := some noModelError }) ∧
    (effectiveVariants s = [] ∨ s.geneSymbol = "" ∨ s.embeddingModels = [] →
      (runPrediction s).predictionResults = s.predictionResults ∧
      (runPrediction s).variantRows = s.variantRows ∧
      (runPrediction s).resultsError ≠ none) := by
  have hempty : effectiveVariants s = [] →
      runPrediction s = { s with resultsError := some noVariantsError } := by
    intro h
    simp [runPrediction, h]
  have hgene : effectiveVariants s ≠ [] → s.geneSymbol = "" →
      runPrediction s = { s with resultsError := some noGeneError } := by
    intro h1 h2
    simp [runPrediction, h1, h2]
  have hmodel : effectiveVariants s ≠ [] → s.geneSymbol ≠ "" →
      s.embeddingModels = [] →
      runPrediction s = { s with resultsError := some noModelError } := by
    intro h1 h2 h3
    simp [runPrediction, h1, h2, h3]
  refine ⟨hempty, hgene, hmodel, ?_⟩
  have hunch : ∀ e : String, runPrediction s = { s with resultsError := some e } →
      (runPrediction s).predictionResults = s.predictionResults ∧
      (runPrediction s).variantRows = s.variantRows ∧
      (runPrediction s).resultsError ≠ none := by
    intro e he
    rw [he]
    exact ⟨rfl, rfl, by simp⟩
  rintro (h | h | h)
  · exact hunch _ (hempty h)
  · by_cases he : effectiveVariants s = []
    · exact hunch _ (hempty he)
    · exact hunch _ (hgene he h)
  · by_cases he : effectiveVariants s = []
    · exact hunch _ (hempty he)
    · by_cases hg : s.geneSymbol = ""
      · exact hunch _ (hgene he hg)
      · exact hunch _ (hmodel he hg h)

/-- C2 witness: in the initial state (manual input, blank text, no parsed
variants, gene preselected) running prediction reports the
add-at-least-one-variant error and changes nothing else. -/
theorem claim_C2_witness :
    runPrediction initState = { initState with resultsError := some noVariantsError } :=
  (claim_C2 initState).1 (by decide)

/-- C10: the aliasing invariant (geneSymbol = selectedGene, annotationMethod
= selectedAnnotation, embeddingModels = selectedModels, sameSevereConsequence
= filterSameConsequence, manualInputText = manualInput, inputMethod =
activeTab) holds in the initial state and is preserved by every store
operation. -/
theorem claim_C10 :
    StoreAliasInv initState ∧
    (∀ s v, StoreAliasInv s → StoreAliasInv (setShowAgreement s v)) ∧
    (∀ s v, StoreAliasInv s → StoreAliasInv (acceptAgreement s v)) ∧
    (∀ s v, StoreAliasInv s → StoreAliasInv (setGeneSymbol s v)) ∧
    (∀ s v, StoreAliasInv s → StoreAliasInv (setAnnotationMethod s v)) ∧
    (∀ s v, StoreAliasInv s → StoreAliasInv (setEmbeddingModels s v)) ∧
    (∀ s v, StoreAliasInv s → StoreAliasInv (setSameSevereConsequence s v)) ∧
    (∀ s v, StoreAliasInv s → StoreAliasInv (setSelectedGene s v)) ∧
    (∀ s v, StoreAliasInv s → StoreAliasInv ( setSelectedAnnotation s v)) ∧
    (∀ s m, StoreAliasInv s → StoreAliasInv (toggleModel s m)) ∧
    (∀ s m, StoreAliasInv s → StoreAliasInv (removeModel s m)) ∧
    (∀ s v, StoreAliasInv s → StoreAliasInv (setFilterSameConsequence s v)) ∧
    (∀ s v, StoreAliasInv s → StoreAliasInv (setManualInput s v)) ∧
    (∀ s v, StoreAliasInv s → StoreAliasInv (setActiveTab s v)) ∧
    (∀ s v, StoreAliasInv s → StoreAliasInv (setInputMethod s v)) ∧
    (∀ s v, StoreAliasInv s → StoreAliasInv (setManualInputText s v)) ∧
    (∀ s v, StoreAliasInv s → StoreAliasInv (setInputVariants s v)) ∧
    (∀ s w, StoreAliasInv s → StoreAliasInv (setSidebarWidth s w)) ∧
    (∀ s v, StoreAliasInv s → StoreAliasInv (setIsResizing s v)) ∧
    (∀ s r, StoreAliasInv s → StoreAliasInv (setPredictionResults s r)) ∧
    (∀ s rows, StoreAliasInv s → StoreAliasInv (setVariantRows s rows)) ∧
    (∀ s v, StoreAliasInv s → StoreAliasInv (setSelectedVariant s v)) ∧
    (∀ s, StoreAliasInv s → StoreAliasInv (downloadMetadata s)) ∧
    (∀ s r h, StoreAliasInv s → StoreAliasInv (fetchConfig s r h)) ∧
    (∀ s, StoreAliasInv s → StoreAliasInv (runPrediction s)) := by
  refine ⟨by decide, ?_, ?_, ?_, ?_, ?_, ?_, ?_, ?_, ?_, ?_, ?_, ?_, ?_, ?_,
    ?_, ?_, ?_, ?_, ?_, ?_, ?_, ?_, ?_, ?_⟩
  · exact fun s v h => h
  · intro s v h
    unfold acceptAgreement
    by_cases hd : v = true <;> simp [hd] <;> exact h
  · exact fun s v h => ⟨rfl, h.2.1, h.2.2.1, h.2.2.2.1, h.2.2.2.2.1, h.2.2.2.2.2⟩
  · exact fun s v h => ⟨h.1, rfl, h.2.2.1, h.2.2.2.1, h.2.2.2.2.1, h.2.2.2.2.2⟩
  · exact fun s v h => ⟨h.1, h.2.1, rfl, h.2.2.2.1, h.2.2.2.2.1, h.2.2.2.2.2⟩
  · exact fun s v h => ⟨h.1, h.2.1, h.2.2.1, rfl, h.2.2.2.2.1, h.2.2.2.2.2⟩
  · exact fun s v h => ⟨rfl, h.2.1, h.2.2.1, h.2.2.2.1, h.2.2.2.2.1, h.2.2.2.2.2⟩
  · exact fun s v h => ⟨h.1, rfl, h.2.2.1, h.2.2.2.1, h.2.2.2.2.1, h.2.2.2.2.2⟩
  · exact fun s m h => ⟨h.1, h.2.1, rfl, h.2.2.2.1, h.2.2.2.2.1, h.2.2.2.2.2⟩
  · exact fun s m h => ⟨h.1, h.2.1, rfl, h.2.2.2.1, h.2.2.2.2.1, h.2.2.2.2.2⟩
  · exact fun s v h => ⟨h.1, h.2.1, h.2.2.1, rfl, h.2.2.2.2.1, h.2.2.2.2.2⟩
  · exact fun s v h => ⟨h.1, h.2.1, h.2.2.1, h.2.2.2.1, rfl, h.2.2.2.2.2⟩
  · exact fun s v h => ⟨h.1, h.2.1, h.2.2.1, h.2.2.2.1, h.2.2.2.2.1, rfl⟩
  · exact fun s v h => ⟨h.1, h.2.1, h.2.2.1, h.2.2.2.1, h.2.2.2.2.1, rfl⟩
  · exact fun s v h => ⟨h.1, h.2.1, h.2.2.1, h.2.2.2.1, rfl, h.2.2.2.2.2⟩
  · exact fun s v h => h
  · exact fun s w h => h
  · exact fun s v h => h
  · exact fun s r h => h
  · exact fun s rows h => h
  · exact fun s v h => h
  · exact fun s h => h
  · intro s r hb h
    obtain ⟨h1, h2, h3, h4, h5, h6⟩ := h
    unfold fetchConfig
    by_cases hc : s.config.isSome = true
    · simp only [hc, if_true]
      exact ⟨h1, h2, h3, h4, h5, h6⟩
    · simp only [hc, if_false]
      cases r with
      | ok config => exact ⟨h1, h2, rfl, h4, h5, h6⟩
      | error msg => exact ⟨h1, h2, h3, h4, h5, h6⟩
  · intro s h
    obtain ⟨h1, h2, h3, h4, h5, h6⟩ := h
    unfold runPrediction
    split
    · exact ⟨h1, h2, h3, h4, h5, h6⟩
    · split
      · exact ⟨h1, h2, h3, h4, h5, h6⟩
      · split
        · exact ⟨h1, h2, h3, h4, h5, h6⟩
        · exact ⟨h1, h2, h3, h4, h5, h6⟩

/-- C10 witness: the invariant, transported by the theorem through a setter
and a full prediction run from the initial state. -/
theorem claim_C10_witness :
    StoreAliasInv (setGeneSymbol initState "BRCA1") ∧
      StoreAliasInv (runPrediction initState) := by
  have h := claim_C10
  obtain ⟨hinit, _, _, hgene, hrest⟩ := h
  refine ⟨hgene initState "BRCA1" hinit, ?_⟩
  have hrun :=
    hrest.2.2.2.2.2.2.2.2.2.2.2.2.2.2.2.2.2.2.2.2
  exact hrun initState hinit

/-- C6: the verifier classifies every probe outcome into exactly one of —
success (only for an HTTP-successful response with a JSON content type whose
payload status is healthy; the message names the service, defaulting to a
generic label), timeout (fixed message mentioning the 8-second bound),
non-JSON/wrong-content-type error, non-success HTTP status error (message
embedding the status code and a 50-character body excerpt), or
transport/CORS error — and the timeout, HTTP-status and content-type
classifications carry pairwise distinct messages. -/
theorem claim_C6 :
    (∀ o : ProbeOutcome, (verifyClassify o).kind = "success" ∨
      (verifyClassify o).kind = "error") ∧
    (∀ o : ProbeOutcome, (verifyClassify o).kind = "success" ↔
      ∃ status ct body data,
        o = ProbeOutcome.response true status ct body (Except.ok data) ∧
        hasJsonContentType ct = true ∧ data.status = some "healthy") ∧
    (∀ status ct body data, hasJsonContentType ct = true →
      data.status = some "healthy" →
      verifyClassify (ProbeOutcome.response true status ct body (Except.ok data)) =
        { connected := true, message := successMessage data.service,
          kind := "success" }) ∧
    (successMessage none = "Connection Successful! Service: vus-life-server") ∧
    (∀ name, successMessage (some name) =
      "Connection Successful! Service: " ++ name) ∧
    (verifyClassify ProbeOutcome.timeout =
      { connected := false, message := timeoutMessage, kind := "error" } ∧
      jsIncludes timeoutMessage "8s" = true) ∧
    (∀ status ct body json, hasJsonContentType ct = false →
      verifyClassify (ProbeOutcome.response true status ct body json) =
        { connected := false, message := nonJsonMessage, kind := "error" }) ∧
    (∀ status ct body json,
      verifyClassify (ProbeOutcome.response false status ct body json) =
        { connected := false, message := serverErrorMessage status body,
          kind := "error" }) ∧
    (∀ status body,
      jsIncludes (serverErrorMessage status body) (jsSliceTo body 50) = true) ∧
    (jsIncludes (serverErrorMessage 503 "Service Unavailable") "503" = true) ∧
    (verifyClassify ProbeOutcome.transportError =
      { connected := false, message := corsMessage, kind := "error" }) ∧
    (timeoutMessage ≠ serverErrorMessage 503 "Service Unavailable" ∧
      timeoutMessage ≠ nonJsonMessage ∧
      serverErrorMessage 503 "Service Unavailable" ≠ nonJsonMessage) := by
  have hclassify : ∀ status ct body data, hasJsonContentType ct = true →
      data.status = some "healthy" →
      verifyClassify (ProbeOutcome.response true status ct body (Except.ok data)) =
        { connected := true, message := successMessage data.service,
          kind := "success" } := by
    intro status ct body data hct hst
    simp [verifyClassify, hct, hst]
  refine ⟨?_, ?_, hclassify, rfl, fun name => rfl, ⟨rfl, by decide⟩, ?_, ?_,
    ?_, by decide, rfl, by refine ⟨?_, ?_, ?_⟩ <;> decide⟩
  · intro o
    cases o with
    | timeout => exact Or.inr rfl
    | transportError => exact Or.inr rfl
    | response ok status ct body json =>
      cases ok
      · exact Or.inr rfl
      · by_cases hct : hasJsonContentType ct = true
        · cases json with
          | error msg => simp [verifyClassify, hct]
          | ok data =>
            by_cases hst : data.status = some "healthy"
            · simp [verifyClassify, hct, hst]
            · simp [verifyClassify, hct, hst]
        · simp [verifyClassify, hct]
  · intro o
    constructor
    · intro hk
      cases o with
      | timeout => exact absurd hk (by decide)
      | transportError => exact absurd hk (by decide)
      | response ok status ct body json =>
        cases ok
        · have hkind : (verifyClassify (ProbeOutcome.response false status ct
              body json)).kind = "error" := rfl
          exact absurd (hkind.symm.trans hk) (by decide)
        · by_cases hct : hasJsonContentType ct = true
          · cases json with
            | error msg =>
              have hkind : (verifyClassify (ProbeOutcome.response true status
                  ct body (Except.error msg))).kind = "error" := by
                simp [verifyClassify, hct]
              exact absurd (hkind.symm.trans hk) (by decide)
            | ok data =>
              by_cases hst : data.status = some "healthy"
              · exact ⟨status, ct, body, data, rfl, hct, hst⟩
              · have hkind : (verifyClassify (ProbeOutcome.response true status
                    ct body (Except.ok data))).kind = "error" := by
                  simp [verifyClassify, hct, hst]
                exact absurd (hkind.symm.trans hk) (by decide)
          · have hkind : (verifyClassify (ProbeOutcome.response true status ct
                body json)).kind = "error" := by
              simp [verifyClassify, hct]
            exact absurd (hkind.symm.trans hk) (by decide)
    · rintro ⟨status, ct, body, data, rfl, hct, hst⟩
      rw [hclassify status ct body data hct hst]
  · intro status ct body json hct
    simp [verifyClassify, hct]
  · intro status ct body json
    rfl
  · intro status body
    simp only [jsIncludes, decide_eq_true_eq]
    refine ⟨("Server error (" ++ Nat.repr status ++ "): ").data, "...".data, ?_⟩
    simp [serverErrorMessage, jsSliceTo, String.data_append, List.append_assoc]

/-- C6 witness: a healthy JSON response from a named service is classified
as success with the service name in the message. -/
theorem claim_C6_witness :
    verifyClassify (ProbeOutcome.response true 200 (some "application/json")
      "{}" (Except.ok { status := some "healthy", service := some "vus-api" })) =
    { connected := true, message := successMessage (some "vus-api"),
      kind := "success" } :=
  claim_C6.2.2.1 200 (some "application/json") "{}"
    { status := some "healthy", service := some "vus-api" } (by decide) rfl

/-- C5: with manual input active and the text non-blank, the effective
variant list is derived by splitting the trimmed text on line breaks,
trimming each line, dropping blanks, and capping at 20 entries taken from
the first 20 non-blank lines in order; the i-th entry carries the
placeholder identity (chromosome 17, position 43064189 + i, reference T,
alternate C) with that line's text as the genomic HGVS label. -/
theorem claim_C5 (s : VusState)
    (hm : s.inputMethod = InputMethod.manual)
    (hnb : jsTrim s.manualInputText ≠ "") :
    (effectiveVariants s = manualVariants s.manualInputText) ∧
    (manualLines s.manualInputText = (nonBlankLines s.manualInputText).take 20) ∧
    ((manualVariants s.manualInputText).length =
      min 20 (nonBlankLines s.manualInputText).length) ∧
    (∀ i, (h : i < (manualVariants s.manualInputText).length) →
      (manualVariants s.manualInputText)[i] =
        { chromosome := "17", position := 43064189 + i, ref_allele := "T",
          alt_allele := "C",
          hgvs_genomic_38 :=
            some ((manualLines s.manualInputText).getD i "") }) := by
  refine ⟨?_, rfl, ?_, ?_⟩
  · unfold effectiveVariants
    rw [if_pos ⟨hm, hnb⟩]
  · unfold manualVariants manualLines
    simp [List.length_take]
  · intro i h
    have hlen : i < (manualLines s.manualInputText).length := by
      unfold manualVariants at h
      simpa using h
    unfold manualVariants
    rw [List.getElem_map, List.getElem_enum]

/-- C5 witness: 35 newline-separated manual entries yield exactly 20 derived
variants. -/
theorem claim_C5_witness :
    effectiveVariants { initState with manualInputText := text35 } =
      manualVariants text35 ∧ (manualVariants text35).length = 20 := by
  have h := claim_C5 { initState with manualInputText := text35 } rfl (by decide)
  refine ⟨h.1, ?_⟩
  rw [h.2.2.1]
  decide

/-- C1 counterexample: two distinct variant 4-tuples whose canonical
identifiers coincide at both call sites — the underscore delimiter occurring
inside one field realigns the joined fields, so variants differing in the
chromosome, position and reference fields share one identifier string. -/
theorem claim_C1_counterexample :
    (Variant.mk "1_2" 3 "A" "C" none ≠ Variant.mk "1" 2 "3_A" "C" none) ∧
    mkVariantIdJoin (Variant.mk "1_2" 3 "A" "C" none) =
      mkVariantIdJoin (Variant.mk "1" 2 "3_A" "C" none) ∧
    mkVariantIdTemplate (Variant.mk "1_2" 3 "A" "C" none) =
      mkVariantIdTemplate (Variant.mk "1" 2 "3_A" "C" none) :=
  ⟨by decide, by decide, by decide⟩

/-- C1 (amended): the canonical identifier is the underscore-join of the
four identity fields behind the fixed variant_ prefix; the two call sites
agree, so identical 4-tuples produce identical identifier strings
everywhere; and for variants whose string fields contain no underscore
character, identifiers are equal exactly when all four identity fields are
equal (so such variants differing in at least one field produce different
identifiers). -/
theorem claim_C1 (v w : Variant)
    (hv : UnderscoreFree v) (hw : UnderscoreFree w) :
    (mkVariantIdJoin v = mkVariantIdTemplate v) ∧
    (mkVariantIdJoin v = mkVariantIdJoin w ↔
      v.chromosome = w.chromosome ∧ v.position = w.position ∧
        v.ref_allele = w.ref_allele ∧ v.alt_allele = w.alt_allele) := by
  refine ⟨mkVariantId_call_sites_agree v, ?_, ?_⟩
  · intro h
    rw [mkVariantId_call_sites_agree v, mkVariantId_call_sites_agree w] at h
    exact mkVariantIdTemplate_inj v w hv hw h
  · rintro ⟨h1, h2, h3, h4⟩
    unfold mkVariantIdJoin
    rw [h1, h2, h3, h4]

/-- C1 witness: the two identifier call sites agree on a concrete variant,
and distinct underscore-free variants get distinct identifiers. -/
theorem claim_C1_witness :
    (mkVariantIdJoin (Variant.mk "17" 43064189 "T" "C" none) =
      mkVariantIdTemplate (Variant.mk "17" 43064189 "T" "C" none)) ∧
    mkVariantIdJoin (Variant.mk "17" 43064189 "T" "C" none) ≠
      mkVariantIdJoin (Variant.mk "17" 43064190 "T" "C" none) := by
  have h := claim_C1 (Variant.mk "17" 43064189 "T" "C" none)
    (Variant.mk "17" 43064190 "T" "C" none) (by decide) (by decide)
  refine ⟨(claim_C1 (Variant.mk "17" 43064189 "T" "C" none)
    (Variant.mk "17" 43064189 "T" "C" none) (by decide) (by decide)).1, ?_⟩
  intro he
  exact absurd (h.2.mp he).2.1 (by decide)

/-! ## Helper lemmas: row derivation -/

theorem buildRow_status_existing (res : PredictionResultsResponse)
    (vid : String) (data : VariantData) (h : vid ∈ res.existing_variants) :
    (buildRow res vid data).status = RowStatus.existing := by
  simp [buildRow, h]

theorem buildRow_status_new (res : PredictionResultsResponse)
    (vid : String) (data : VariantData) (h : vid ∉ res.existing_variants) :
    (buildRow res vid data).status = RowStatus.new := by
  simp [buildRow, h]

theorem buildRow_variant_id (res : PredictionResultsResponse)
    (vid : String) (data : VariantData) :
    (buildRow res vid data).variant_id = vid := rfl

theorem buildRow_existing_no_score (res : PredictionResultsResponse)
    (vid : String) (data : VariantData) (h : vid ∈ res.existing_variants) :
    (buildRow res vid data).prediction_score = none ∧
      (buildRow res vid data).prediction_label = none := by
  constructor <;> simp [buildRow, h]

theorem buildRow_new_score (res : PredictionResultsResponse)
    (vid : String) (data : VariantData) (h : vid ∉ res.existing_variants)
    (firstModel : String) (rest : List String)
    (hmn : res.model_name = firstModel :: rest)
    (md : ModelPayload) (hmd : objLookup data.models firstModel = some md)
    (herr : md.error = none) :
    (buildRow res vid data).prediction_score = some
      ((((objLookup md.prediction_result "5").orElse
        (fun _ => objLookup md.prediction_result "1")).bind
          PredEntry.confidence_score).getD "") ∧
    (buildRow res vid data).prediction_label = some
      ((((objLookup md.prediction_result "5").orElse
        (fun _ => objLookup md.prediction_result "1")).bind
          PredEntry.pred_result).getD
        ((((objLookup md.prediction_result "5").orElse
          (fun _ => objLookup md.prediction_result "1")).bind
            PredEntry.confidence_score).getD "")) := by
  constructor <;>
    simp [buildRow, newRowScoreLabel, h, hmn, hmd, herr]

/-- C3: every key of the prediction-results map yields a row; a row is
classified existing exactly when its identifier is in the response's
existing set; an existing row never carries a prediction score or label; a
new row's score/label pair is taken from the first listed model's k = 5
prediction entry, falling back to the k = 1 entry when 5 is absent (score
from confidence_score, label from pred_result). -/
theorem claim_C3 (res : PredictionResultsResponse) :
    (∀ p ∈ res.prediction_results, buildRow res p.1 p.2 ∈ buildVariantRows res) ∧
    (∀ variantId data,
      ((buildRow res variantId data).status = RowStatus.existing ↔
        variantId ∈ res.existing_variants) ∧
      ((buildRow res variantId data).status = RowStatus.existing →
        (buildRow res variantId data).prediction_score = none ∧
        (buildRow res variantId data).prediction_label = none) ∧
      (variantId ∉ res.existing_variants →
        ∀ firstModel rest, res.model_name = firstModel :: rest →
        ∀ md, objLookup data.models firstModel = some md → md.error = none →
        ((∀ e, objLookup md.prediction_result "5" = some e →
          (buildRow res variantId data).prediction_score =
            some (e.confidence_score.getD "") ∧
          (buildRow res variantId data).prediction_label =
            some (e.pred_result.getD (e.confidence_score.getD ""))) ∧
        (objLookup md.prediction_result "5" = none →
          ∀ e, objLookup md.prediction_result "1" = some e →
          (buildRow res variantId data).prediction_score =
            some (e.confidence_score.getD "") ∧
          (buildRow res variantId data).prediction_label =
            some (e.pred_result.getD (e.confidence_score.getD "")))))) := by
  refine ⟨?_, ?_⟩
  · intro p hp
    exact List.mem_map.mpr ⟨p, hp, rfl⟩
  · intro variantId data
    refine ⟨?_, ?_, ?_⟩
    · constructor
      · intro hst
        by_cases h : variantId ∈ res.existing_variants
        · exact h
        · rw [buildRow_status_new res variantId data h] at hst
          exact absurd hst (by decide)
      · intro h
        exact buildRow_status_existing res variantId data h
    · intro hst
      by_cases h : variantId ∈ res.existing_variants
      · exact buildRow_existing_no_score res variantId data h
      · rw [buildRow_status_new res variantId data h] at hst
        exact absurd hst (by decide)
    · intro h firstModel rest hmn md hmd herr
      have hscore := buildRow_new_score res variantId data h firstModel rest
        hmn md hmd herr
      constructor
      · intro e he
        rw [hscore.1, hscore.2, he]
        exact ⟨rfl, rfl⟩
      · intro h5 e h1
        rw [hscore.1, hscore.2, h5, h1]
        exact ⟨rfl, rfl⟩

/-! ## Helper lemmas: the mock client's prediction-results map -/

theorem objInsert_fresh {α : Type} (l : List (String × α)) (k : String) (v : α)
    (h : ∀ p ∈ l, p.1 ≠ k) : objInsert l k v = l ++ [(k, v)] := by
  have hany : l.any (fun p => p.1 = k) = false := by
    rw [List.any_eq_false]
    intro p hp
    simpa using h p hp
  unfold objInsert
  rw [hany]
  simp

theorem foldl_objInsert_map {α β : Type} (g : β → String × α) (l : List β) :
    ∀ acc : List (String × α),
      ((acc.map Prod.fst) ++ (l.map g).map Prod.fst).Nodup →
      l.foldl (fun a p => objInsert a (g p).1 (g p).2) acc = acc ++ l.map g := by
  induction l with
  | nil =>
    intro acc _
    simp
  | cons e es ih =>
    intro acc h
    simp only [List.map_cons] at h
    have hfresh : ∀ p ∈ acc, p.1 ≠ (g e).1 := by
      intro p hp hpe
      have h1 : (g e).1 ∈ acc.map Prod.fst := List.mem_map.mpr ⟨p, hp, hpe⟩
      exact (List.disjoint_of_nodup_append h) h1 (List.mem_cons_self _ _)
    simp only [List.foldl_cons]
    rw [objInsert_fresh acc (g e).1 (g e).2 hfresh]
    have h2 : ((acc ++ [g e]).map Prod.fst ++ (es.map g).map Prod.fst).Nodup := by
      simpa [List.map_append] using h
    rw [ih (acc ++ [g e]) h2]
    simp

theorem filter_mem_take_eq {α : Type} [DecidableEq α] (l : List α)
    (hl : l.Nodup) (k : Nat) :
    l.filter (fun x => decide (x ∈ l.take k)) = l.take k := by
  have h1 : (l.take k).filter (fun x => decide (x ∈ l.take k)) = l.take k := by
    rw [List.filter_eq_self]
    intro a ha
    simpa using ha
  have h2 : (l.drop k).filter (fun x => decide (x ∈ l.take k)) = [] := by
    rw [List.filter_eq_nil_iff]
    intro a ha
    simp only [decide_eq_true_eq]
    intro hmem
    exact (List.disjoint_take_drop hl (le_refl k)) hmem ha
  calc l.filter (fun x => decide (x ∈ l.take k))
      = (l.take k ++ l.drop k).filter (fun x => decide (x ∈ l.take k)) := by
        rw [List.take_append_drop]
    _ = l.take k := by rw [List.filter_append, h1, h2, List.append_nil]

theorem countP_mem_take {α : Type} [DecidableEq α] (l : List α) (hl : l.Nodup)
    (k : Nat) :
    l.countP (fun x => decide (x ∈ l.take k)) = min k l.length := by
  rw [List.countP_eq_length_filter, filter_mem_take_eq l hl k, List.length_take]

theorem mock_entry_keys (payload : PredictionResultPayload) :
    ((payload.variants.take 20).enum.map
      (mockEntry payload.gene_symbol (mockModelNames payload)
        (mockExistingVariants payload))).map Prod.fst =
    (payload.variants.take 20).map mkVariantIdTemplate := by
  rw [List.map_map]
  rw [show (Prod.fst ∘ mockEntry payload.gene_symbol (mockModelNames payload)
      (mockExistingVariants payload)) =
    (mkVariantIdTemplate ∘ Prod.snd) from rfl]
  rw [← List.map_map, List.enum_eq_enumFrom, List.enumFrom_map_snd]

theorem mock_prediction_results_eq (payload : PredictionResultPayload)
    (hids : ((payload.variants.take 20).map mkVariantIdTemplate).Nodup) :
    (getMockPredictionResults payload).prediction_results =
      (payload.variants.take 20).enum.map
        (mockEntry payload.gene_symbol (mockModelNames payload)
          (mockExistingVariants payload)) := by
  have h0 : (getMockPredictionResults payload).prediction_results =
      (payload.variants.take 20).enum.foldl
        (fun acc p => objInsert acc
          (mockEntry payload.gene_symbol (mockModelNames payload)
            (mockExistingVariants payload) p).1
          (mockEntry payload.gene_symbol (mockModelNames payload)
            (mockExistingVariants payload) p).2) [] := rfl
  have hk := mock_entry_keys payload
  rw [List.map_map] at hk
  rw [h0, foldl_objInsert_map _ _ [] (by simpa [hk] using hids)]
  simp

/-- C4 (amended): the mock client processes at most the first 20 variants,
marks exactly the first min(2, floor(n/2)) processed variants as existing by
constructing their canonical identifiers (no lookup), reports zero failed
variants; and when the processed variants have pairwise-distinct canonical
identifiers, the derived rows classify a row as existing exactly when its
identifier is in the existing set, and for 6 input variants exactly 2 rows
are existing while the other 4 are new. -/
theorem claim_C4 (payload : PredictionResultPayload)
    (hids : ((payload.variants.take 20).map mkVariantIdJoin).Nodup) :
    ((getMockPredictionResults payload).variants_count =
      min payload.variants.length 20) ∧
    ((getMockPredictionResults payload).existing_variants =
      ((payload.variants.take 20).take
        (min 2 ((payload.variants.take 20).length / 2))).map mkVariantIdJoin) ∧
    ((getMockPredictionResults payload).existing_variants.length =
      min 2 (payload.variants.length / 2)) ∧
    ((getMockPredictionResults payload).failed_results_count = 0) ∧
    ((buildVariantRows (getMockPredictionResults payload)).length =
      min payload.variants.length 20) ∧
    ((buildVariantRows (getMockPredictionResults payload)).countP
      (fun r => r.status = RowStatus.existing) =
        min 2 (payload.variants.length / 2)) ∧
    ((buildVariantRows (getMockPredictionResults payload)).countP
      (fun r => r.status = RowStatus.new) =
        min payload.variants.length 20 - min 2 (payload.variants.length / 2)) ∧
    (∀ r ∈ buildVariantRows (getMockPredictionResults payload),
      r.status = RowStatus.existing ↔
        r.variant_id ∈ (getMockPredictionResults payload).existing_variants) ∧
    (payload.variants.length = 6 →
      (getMockPredictionResults payload).existing_variants.length = 2 ∧
      (buildVariantRows (getMockPredictionResults payload)).countP
        (fun r => r.status = RowStatus.existing) = 2 ∧
      (buildVariantRows (getMockPredictionResults payload)).countP
        (fun r => r.status = RowStatus.new) = 4) := by
  have hfun : mkVariantIdJoin = mkVariantIdTemplate :=
    funext mkVariantId_call_sites_agree
  have hidsT : ((payload.variants.take 20).map mkVariantIdTemplate).Nodup := by
    rwa [hfun] at hids
  have hpred := mock_prediction_results_eq payload hidsT
  have hcount1 : (getMockPredictionResults payload).variants_count =
      min payload.variants.length 20 := by
    show (payload.variants.take 20).length = _
    rw [List.length_take, Nat.min_comm]
  have hexist : (getMockPredictionResults payload).existing_variants =
      ((payload.variants.take 20).take
        (min 2 ((payload.variants.take 20).length / 2))).map mkVariantIdJoin :=
    rfl
  have hexlen : (getMockPredictionResults payload).existing_variants.length =
      min 2 (payload.variants.length / 2) := by
    rw [hexist, List.length_map, List.length_take, List.length_take]
    omega
  have hrows : buildVariantRows (getMockPredictionResults payload) =
      (payload.variants.take 20).enum.map (fun p =>
        buildRow (getMockPredictionResults payload)
          (mockEntry payload.gene_symbol (mockModelNames payload)
            (mockExistingVariants payload) p).1
          (mockEntry payload.gene_symbol (mockModelNames payload)
            (mockExistingVariants payload) p).2) := by
    unfold buildVariantRows
    rw [hpred, List.map_map]
    rfl
  have hrowlen : (buildVariantRows (getMockPredictionResults payload)).length =
      min payload.variants.length 20 := by
    rw [hrows, List.length_map, List.enum_eq_enumFrom, List.enumFrom_length,
      List.length_take, Nat.min_comm]
  have hstatus : ∀ p : Nat × Variant,
      (buildRow (getMockPredictionResults payload)
        (mockEntry payload.gene_symbol (mockModelNames payload)
          (mockExistingVariants payload) p).1
        (mockEntry payload.gene_symbol (mockModelNames payload)
          (mockExistingVariants payload) p).2).status = RowStatus.existing ↔
      mkVariantIdTemplate p.2 ∈
        (getMockPredictionResults payload).existing_variants := by
    intro p
    by_cases hm : (mockEntry payload.gene_symbol (mockModelNames payload)
        (mockExistingVariants payload) p).1 ∈
        (getMockPredictionResults payload).existing_variants
    · rw [buildRow_status_existing _ _ _ hm]
      exact ⟨fun _ => hm, fun _ => rfl⟩
    · rw [buildRow_status_new _ _ _ hm]
      exact ⟨fun hc => absurd hc (by decide), fun hc => absurd hc hm⟩
  have hids_eq : (payload.variants.take 20).map mkVariantIdTemplate =
      (payload.variants.take 20).enum.map (fun p => mkVariantIdTemplate p.2) := by
    rw [show (fun p : Nat × Variant => mkVariantIdTemplate p.2) =
      mkVariantIdTemplate ∘ Prod.snd from rfl, ← List.map_map,
      List.enum_eq_enumFrom, List.enumFrom_map_snd]
  have hexist_take : (getMockPredictionResults payload).existing_variants =
      ((payload.variants.take 20).map mkVariantIdTemplate).take
        (min 2 ((payload.variants.take 20).length / 2)) := by
    rw [hexist, hfun, List.map_take]
  have hcexist : (buildVariantRows (getMockPredictionResults payload)).countP
      (fun r => r.status = RowStatus.existing) =
        min 2 (payload.variants.length / 2) := by
    rw [hrows, List.countP_map]
    have step1 : (payload.variants.take 20).enum.countP
        ((fun r => decide (r.status = RowStatus.existing)) ∘ (fun p =>
          buildRow (getMockPredictionResults payload)
            (mockEntry payload.gene_symbol (mockModelNames payload)
              (mockExistingVariants payload) p).1
            (mockEntry payload.gene_symbol (mockModelNames payload)
              (mockExistingVariants payload) p).2)) =
        (payload.variants.take 20).enum.countP (fun p =>
          decide (mkVariantIdTemplate p.2 ∈
            (getMockPredictionResults payload).existing_variants)) := by
      apply List.countP_congr
      intro p _
      simpa using hstatus p
    rw [step1]
    have step2 : (payload.variants.take 20).enum.countP (fun p =>
        decide (mkVariantIdTemplate p.2 ∈
          (getMockPredictionResults payload).existing_variants)) =
        ((payload.variants.take 20).map mkVariantIdTemplate).countP (fun k =>
          decide (k ∈ (getMockPredictionResults payload).existing_variants)) := by
      rw [hids_eq, List.countP_map]
      rfl
    rw [step2, hexist_take]
    rw [countP_mem_take _ hidsT _]
    simp only [List.length_map, List.length_take]
    omega
  have hcnew : (buildVariantRows (getMockPredictionResults payload)).countP
      (fun r => r.status = RowStatus.new) =
        min payload.variants.length 20 - min 2 (payload.variants.length / 2) := by
    have hsplit := List.length_eq_countP_add_countP
      (fun r => decide (r.status = RowStatus.existing))
      (buildVariantRows (getMockPredictionResults payload))
    have hcongr : (buildVariantRows (getMockPredictionResults payload)).countP
        (fun r => r.status = RowStatus.new) =
        (buildVariantRows (getMockPredictionResults payload)).countP
          (fun r => ¬ (decide (r.status = RowStatus.existing) = true)) := by
      apply List.countP_congr
      intro r _
      cases hr : r.status <;> simp [hr]
    rw [hcongr]
    rw [hrowlen] at hsplit
    rw [hcexist] at hsplit
    omega
  have hiff : ∀ r ∈ buildVariantRows (getMockPredictionResults payload),
      r.status = RowStatus.existing ↔
        r.variant_id ∈ (getMockPredictionResults payload).existing_variants := by
    intro r hr
    rw [hrows] at hr
    obtain ⟨p, _, rfl⟩ := List.mem_map.mp hr
    exact hstatus p
  refine ⟨hcount1, hexist, hexlen, rfl, hrowlen, hcexist, hcnew, hiff, ?_⟩
  intro h6
  rw [hexlen, hcexist, hcnew, h6]
  omega

/-- C4 counterexample: six pairwise-distinct variant tuples for which the
mock's existing set nevertheless contains only one distinct identifier (the
first two tuples collide via the underscore delimiter), contradicting the
claim that 6 distinct input variants always yield exactly 2 identifiers in
the existing set. -/
theorem claim_C4_counterexample :
    List.Pairwise (fun a b => a ≠ b) collidingSix ∧
    collidingSix.length = 6 ∧
    ((getMockPredictionResults
      { gene_symbol := "BRCA1", variants := collidingSix,
        annotation_method := "vep",
        embedding_models := ["all-mpnet-base-v2"],
        same_severe_consequence := false }).existing_variants).dedup.length = 1 := by
  refine ⟨by decide, by decide, by decide⟩

/-- C4 witness: six concrete distinct variants with distinct identifiers:
the partition is exactly 2 existing and 4 new. -/
theorem claim_C4_witness :
    (getMockPredictionResults
      { gene_symbol := "BRCA1"
        variants := [
          { chromosome := "17", position := 100, ref_allele := "T", alt_allele := "C" },
          { chromosome := "17", position := 101, ref_allele := "T", alt_allele := "C" },
          { chromosome := "17", position := 102, ref_allele := "T", alt_allele := "C" },
          { chromosome := "17", position := 103, ref_allele := "T", alt_allele := "C" },
          { chromosome := "17", position := 104, ref_allele := "T", alt_allele := "C" },
          { chromosome := "17", position := 105, ref_allele := "T", alt_allele := "C" }]
        annotation_method := "vep"
        embedding_models := ["all-mpnet-base-v2"]
        same_severe_consequence := false }).existing_variants.length = 2 ∧
    (buildVariantRows (getMockPredictionResults
      { gene_symbol := "BRCA1"
        variants := [
          { chromosome := "17", position := 100, ref_allele := "T", alt_allele := "C" },
          { chromosome := "17", position := 101, ref_allele := "T", alt_allele := "C" },
          { chromosome := "17", position := 102, ref_allele := "T", alt_allele := "C" },
          { chromosome := "17", position := 103, ref_allele := "T", alt_allele := "C" },
          { chromosome := "17", position := 104, ref_allele := "T", alt_allele := "C" },
          { chromosome := "17", position := 105, ref_allele := "T", alt_allele := "C" }]
        annotation_method := "vep"
        embedding_models := ["all-mpnet-base-v2"]
        same_severe_consequence := false })).countP
      (fun r => r.status = RowStatus.existing) = 2 := by
  have h := claim_C4
    { gene_symbol := "BRCA1"
      variants := [
        { chromosome := "17", position := 100, ref_allele := "T", alt_allele := "C" },
        { chromosome := "17", position := 101, ref_allele := "T", alt_allele := "C" },
        { chromosome := "17", position := 102, ref_allele := "T", alt_allele := "C" },
        { chromosome := "17", position := 103, ref_allele := "T", alt_allele := "C" },
        { chromosome := "17", position := 104, ref_allele := "T", alt_allele := "C" },
        { chromosome := "17", position := 105, ref_allele := "T", alt_allele := "C" }]
      annotation_method := "vep"
      embedding_models := ["all-mpnet-base-v2"]
      same_severe_consequence := false } (by decide)
  obtain ⟨-, -, -, -, -, -, -, -, hlast⟩ := h
  have := hlast (by decide)
  exact ⟨this.1, this.2.1⟩

/-- C3 witness: on a concrete response, the new variant's row takes score
0.78 and label Uncertain significance from the first model's k = 5 entry. -/
theorem claim_C3_witness :
    (buildRow sampleResponse "variant_17_2_T_C" sampleNewData).prediction_score =
      some "0.78" ∧
    (buildRow sampleResponse "variant_17_2_T_C" sampleNewData).prediction_label =
      some "Uncertain significance" := by
  have h := (((claim_C3 sampleResponse).2 "variant_17_2_T_C" sampleNewData).2.2
    (by decide) "all-mpnet-base-v2" [] rfl mockModelPayload rfl rfl).1
    { confidence_score := some "0.78",
      pred_result := some "Uncertain significance" } rfl
  exact h

end VusLife

